import Mathlib

set_option autoImplicit false

namespace SmartFarm

/-!
Shallow embedding of the UNIX SmartFarm IPC system (sources: include/common.h,
main_actuator.c at the repository root, and src/main_sensor.c,
src/main_actuator.c, src/main_monitor.c, src/main_server.c).

C `int` fields are modelled as integers (the device flags hold 0 or 1 exactly
as the source stores them), C `float` values as rationals, and the System V
shared-memory segment as a record.  Critical sections guarded by the single
semaphore are additionally embedded as lists of micro-operations so that the
locking discipline itself (what is read or written, and whether I/O happens,
between `sem_lock` and `sem_unlock`) can be stated and checked.
-/

/-- The shared-memory record.  `temp_threshold`, `humidity_threshold` and
`system_running` are declared in include/common.h; the device flags and the
last readings are the fields the server writes in main_server.c (lines
277-284) and that every other process reads through the same segment.  The
`pids` array declared in common.h is never accessed by any source file and is
omitted. -/
structure SharedData where
  temp_threshold : ℤ
  humidity_threshold : ℤ
  heater_on : ℤ
  fan_on : ℤ
  led_on : ℤ
  current_temp : ℚ
  current_humidity : ℚ
  system_running : ℤ
  deriving DecidableEq, Repr

/-- Initial contents of the shared memory, written by the server under the
semaphore right after creating the segment (main_server.c lines 276-285). -/
def initSharedData : SharedData where
  temp_threshold := 28
  humidity_threshold := 70
  heater_on := 0
  fan_on := 0
  led_on := 1
  current_temp := 25
  current_humidity := 50
  system_running := 1

/-- A sensor reading message (SensorDataMsg in common.h, without the
message-queue type tag). -/
structure SensorDataMsg where
  temperature : ℚ
  humidity : ℚ
  timestamp : ℤ
  deriving DecidableEq, Repr

/-- A log record sent over the pipe to the logger child (LogMessage in
main_server.c lines 49-55). -/
structure LogMessage where
  temperature : ℚ
  humidity : ℚ
  heater_on : ℤ
  fan_on : ℤ
  timestamp : ℤ
  deriving DecidableEq, Repr

/-- One pass of the server main loop over a received sensor message
(main_server.c lines 339-373): read the thresholds, compute the control
outputs, write the five state fields back, and build the LogMessage that is
written to the pipe.  Returns the updated shared state and that record. -/
def controllerProcessReading (s : SharedData) (msg : SensorDataMsg) (now : ℤ) :
    SharedData × LogMessage :=
  let temp_thresh := s.temp_threshold
  let hum_thresh := s.humidity_threshold
  let new_heater : ℤ := if msg.temperature < (temp_thresh : ℚ) then 1 else 0
  let new_fan : ℤ := if msg.humidity > (hum_thresh : ℚ) then 1 else 0
  let s' : SharedData :=
    { s with
      heater_on := new_heater
      fan_on := new_fan
      led_on := 1
      current_temp := msg.temperature
      current_humidity := msg.humidity }
  (s', { temperature := msg.temperature
         humidity := msg.humidity
         heater_on := new_heater
         fan_on := new_fan
         timestamp := now })

/-- The actuator's local copy of the control state, as read in one critical
section by read_control_state (src/main_actuator.c lines 109-117 and
main_actuator.c lines 253-261 at the repository root). -/
structure ActuatorView where
  heater_on : ℤ
  fan_on : ℤ
  led_on : ℤ
  current_temp : ℚ
  current_humidity : ℚ
  deriving DecidableEq, Repr

/-- read_control_state: copy the five control-state fields out of shared
memory under the semaphore. -/
def read_control_state (s : SharedData) : ActuatorView where
  heater_on := s.heater_on
  fan_on := s.fan_on
  led_on := s.led_on
  current_temp := s.current_temp
  current_humidity := s.current_humidity

/-- Monitor menu case 1 (src/main_monitor.c lines 69-78): store the integer
read from the operator into temp_threshold, with no validation. -/
def monitorSetTempThreshold (s : SharedData) (new_temp : ℤ) : SharedData :=
  { s with temp_threshold := new_temp }

/-- Monitor menu case 2 (src/main_monitor.c lines 79-88): store the integer
read from the operator into humidity_threshold, with no validation. -/
def monitorSetHumidityThreshold (s : SharedData) (new_hum : ℤ) : SharedData :=
  { s with humidity_threshold := new_hum }

/-- The three alert conditions evaluated on one tick of the alert thread. -/
structure AlertFlags where
  high_temp : Bool
  low_temp : Bool
  high_hum : Bool
  deriving DecidableEq, Repr

/-- Alert conditions from alert_thread_func (main_server.c lines 123-132),
evaluated on the values copied out of shared memory: high temperature when
temp > temp_thresh + 5, low temperature when temp < 20.0, high humidity when
hum > hum_thresh + 10. -/
def alertConditions (temp hum : ℚ) (temp_thresh hum_thresh : ℤ) : AlertFlags where
  high_temp := decide (temp > ((temp_thresh + 5 : ℤ) : ℚ))
  low_temp := decide (temp < 20)
  high_hum := decide (hum > ((hum_thresh + 10 : ℤ) : ℚ))

/-- One tick of the alert thread (main_server.c lines 115-132): copy
current_temp, current_humidity, temp_threshold and humidity_threshold out of
shared memory in one critical section, then evaluate the three conditions. -/
def alertTick (s : SharedData) : AlertFlags :=
  let temp := s.current_temp
  let hum := s.current_humidity
  let temp_thresh := s.temp_threshold
  let hum_thresh := s.humidity_threshold
  alertConditions temp hum temp_thresh hum_thresh

/-- One formatted log line, as printed by logger_process (main_server.c lines
88-93): the record's timestamp (rendered through localtime), its temperature
and humidity, and the ON/OFF strings for heater and fan. -/
structure LogLine where
  timestamp : ℤ
  temperature : ℚ
  humidity : ℚ
  heater_str : String
  fan_str : String
  deriving DecidableEq, Repr

/-- Formatting of one LogMessage into one log line (the fprintf at
main_server.c lines 88-93; a C int tests true exactly when nonzero). -/
def formatLogLine (m : LogMessage) : LogLine where
  timestamp := m.timestamp
  temperature := m.temperature
  humidity := m.humidity
  heater_str := if m.heater_on ≠ 0 then "ON" else "OFF"
  fan_str := if m.fan_on ≠ 0 then "ON" else "OFF"

/-- The logger child's read loop (main_server.c lines 85-95) after the parent
has closed the write end of the pipe: each read(2) returns the next buffered
LogMessage in FIFO order, and returns 0 (end of file) once the buffer is
empty, ending the loop.  The function returns the log lines appended, in
order. -/
def loggerDrain : List LogMessage → List LogLine
  | [] => []
  | m :: rest => formatLogLine m :: loggerDrain rest

/-- Loop guard of the server main loop, main_server.c line 332: the source is
literally `while (1)`; the guard inspects nothing, in particular not the
shared running flag. -/
def serverLoopGuard (_s : SharedData) : Bool := true

/-- Loop guard of the alert thread, main_server.c line 115: `while
(thread_running)` over the process-local global `thread_running`; the shared
running flag is not consulted. -/
def alertLoopGuard (thread_running : ℤ) : Bool := decide (thread_running ≠ 0)

/-- The sensor's per-cycle shutdown poll (src/main_sensor.c lines 211-218):
continue exactly when the shared running flag is nonzero. -/
def sensorRunPoll (s : SharedData) : Bool := decide (s.system_running ≠ 0)

/-- The actuator's per-cycle shutdown poll (src/main_actuator.c lines
158-166, and lines 296-304 of the root main_actuator.c): continue exactly
when the shared running flag is nonzero. -/
def actuatorRunPoll (s : SharedData) : Bool := decide (s.system_running ≠ 0)

/-- The server process's file-scope globals that cleanup_resources consults
(main_server.c lines 33-44).  None of the handles is ever reset after
release: the source never assigns -1 back to the ids or to pipe_fd[1], never
NULLs shared_data, and never clears logger_pid. -/
structure ServerGlobals where
  msg_queue_id : ℤ
  shm_id : ℤ
  sem_id : ℤ
  shared_ptr_valid : Bool
  logger_pid : ℤ
  pipe_write_fd : ℤ
  thread_running : ℤ
  deriving DecidableEq, Repr

/-- Operating-system-side resource book-keeping for the server: which
resources still exist (or are still held) when a release call is made.  A
release call made while the corresponding flag is false fails (EBADF on the
closed pipe fd, ECHILD on the reaped child, EINVAL/EIDRM on the removed IPC
objects). -/
structure OsResources where
  thread_joinable : Bool
  sem_exists : Bool
  msgq_exists : Bool
  shm_exists : Bool
  shm_attached : Bool
  pipe_write_open : Bool
  logger_child_alive : Bool
  deriving DecidableEq, Repr

/-- The whole server-side state that the shutdown path touches. -/
structure SysState where
  g : ServerGlobals
  os : OsResources
  shared : SharedData
  deriving DecidableEq, Repr

/-- One release-side action performed by cleanup_resources, with `ok = false`
when the underlying resource had already been released, so that the call
fails (and, for sem_lock/sem_unlock, perrors). -/
inductive CleanupAction
  | joinThread (ok : Bool)
  | lockSem (ok : Bool)
  | setRunningFlag
  | unlockSem (ok : Bool)
  | closePipeWrite (fd : ℤ) (ok : Bool)
  | waitLogger (pid : ℤ) (ok : Bool)
  | detachShm (ok : Bool)
  | removeMsgQueue (ok : Bool)
  | removeShm (ok : Bool)
  | removeSem (ok : Bool)
  deriving DecidableEq, Repr

/-- Whether a cleanup action failed (its resource was already released). -/
def cleanupActionFails : CleanupAction → Bool
  | .joinThread ok => !ok
  | .lockSem ok => !ok
  | .setRunningFlag => false
  | .unlockSem ok => !ok
  | .closePipeWrite _ ok => !ok
  | .waitLogger _ ok => !ok
  | .detachShm ok => !ok
  | .removeMsgQueue ok => !ok
  | .removeShm ok => !ok
  | .removeSem ok => !ok

/-- cleanup_resources (main_server.c lines 145-195), step by step:
1. set thread_running to 0 and join the alert thread;
2. if shared_data is non-NULL, set system_running to 0 under the semaphore;
3. if pipe_fd[1] is not -1, close it (pipe_fd[1] itself is not reset);
4. if logger_pid > 0, wait for the child (logger_pid is not reset);
5. if shared_data is non-NULL, detach the segment (the pointer is not reset);
6. remove the message queue, the shared-memory segment and the semaphore for
   every id that is not -1 (the ids are not reset).
Returns the new state and the list of release actions performed, in order. -/
def cleanup_resources (st : SysState) : SysState × List CleanupAction :=
  let g1 : ServerGlobals := { st.g with thread_running := 0 }
  let act1 : List CleanupAction := [.joinThread st.os.thread_joinable]
  let os1 : OsResources := { st.os with thread_joinable := false }
  let shared2 : SharedData :=
    if g1.shared_ptr_valid then { st.shared with system_running := 0 } else st.shared
  let act2 : List CleanupAction :=
    if g1.shared_ptr_valid then
      [.lockSem os1.sem_exists, .setRunningFlag, .unlockSem os1.sem_exists]
    else []
  let act3 : List CleanupAction :=
    if g1.pipe_write_fd ≠ -1 then [.closePipeWrite g1.pipe_write_fd os1.pipe_write_open]
    else []
  let os3 : OsResources :=
    if g1.pipe_write_fd ≠ -1 then { os1 with pipe_write_open := false } else os1
  let act4 : List CleanupAction :=
    if g1.logger_pid > 0 then [.waitLogger g1.logger_pid os3.logger_child_alive]
    else []
  let os4 : OsResources :=
    if g1.logger_pid > 0 then { os3 with logger_child_alive := false } else os3
  let act5 : List CleanupAction :=
    if g1.shared_ptr_valid then [.detachShm os4.shm_attached] else []
  let os5 : OsResources :=
    if g1.shared_ptr_valid then { os4 with shm_attached := false } else os4
  let act6 : List CleanupAction :=
    if g1.msg_queue_id ≠ -1 then [.removeMsgQueue os5.msgq_exists] else []
  let os6 : OsResources :=
    if g1.msg_queue_id ≠ -1 then { os5 with msgq_exists := false } else os5
  let act7 : List CleanupAction :=
    if g1.shm_id ≠ -1 then [.removeShm os6.shm_exists] else []
  let os7 : OsResources :=
    if g1.shm_id ≠ -1 then { os6 with shm_exists := false } else os6
  let act8 : List CleanupAction :=
    if g1.sem_id ≠ -1 then [.removeSem os7.sem_exists] else []
  let os8 : OsResources :=
    if g1.sem_id ≠ -1 then { os7 with sem_exists := false } else os7
  (⟨g1, os8, shared2⟩, act1 ++ act2 ++ act3 ++ act4 ++ act5 ++ act6 ++ act7 ++ act8)

/-- A concrete server state right after successful initialization in main
(main_server.c lines 243-324): all resources created and live, sample ids and
pids, the shared memory freshly initialized. -/
def postInitState : SysState where
  g := { msg_queue_id := 3
         shm_id := 7
         sem_id := 9
         shared_ptr_valid := true
         logger_pid := 100
         pipe_write_fd := 4
         thread_running := 1 }
  os := { thread_joinable := true
          sem_exists := true
          msgq_exists := true
          shm_exists := true
          shm_attached := true
          pipe_write_open := true
          logger_child_alive := true }
  shared := initSharedData

/-! Micro-operation embedding of the semaphore critical sections.  Each
sem_lock .. sem_unlock region in the six source files is listed literally as
the sequence of primitive steps it performs: acquiring the semaphore,
releasing it, reading a shared field, writing a shared field, or doing I/O
(printf) while the semaphore is held. -/

/-- The fields of the shared-memory record, as names. -/
inductive SField
  | tempThreshold
  | humidityThreshold
  | heaterOn
  | fanOn
  | ledOn
  | currentTemp
  | currentHumidity
  | systemRunning
  deriving DecidableEq, Repr

/-- A primitive step inside (or around) a critical section. -/
inductive Mop
  | lock
  | unlock
  | readF (f : SField)
  | writeF (f : SField) (v : ℚ)
  | ioOp
  deriving DecidableEq, Repr

/-- A section performs only shared-field reads and writes (no I/O) besides
the lock and unlock themselves. -/
def fieldOpsOnly (sec : List Mop) : Bool :=
  sec.all fun op =>
    match op with
    | .ioOp => false
    | _ => true

/-- A section is a single scoped access: it begins with one lock, ends with
one unlock, and contains no other lock or unlock. -/
def singleScoped (sec : List Mop) : Bool :=
  match sec with
  | .lock :: rest =>
    match rest.getLast? with
    | some .unlock =>
      rest.dropLast.all fun op =>
        match op with
        | .lock => false
        | .unlock => false
        | _ => true
    | _ => false
  | _ => false

/-- The shared fields a section reads, in order. -/
def sectionReads (sec : List Mop) : List SField :=
  sec.filterMap fun op =>
    match op with
    | .readF f => some f
    | _ => none

/-- Server: initialization of the shared memory (main_server.c 276-285). -/
def serverInitSection : List Mop :=
  [.lock, .writeF .tempThreshold 28, .writeF .humidityThreshold 70,
   .writeF .heaterOn 0, .writeF .fanOn 0, .writeF .ledOn 1,
   .writeF .currentTemp 25, .writeF .currentHumidity 50,
   .writeF .systemRunning 1, .unlock]

/-- Server: threshold read before the control decision (main_server.c
341-344). -/
def serverThreshReadSection : List Mop :=
  [.lock, .readF .tempThreshold, .readF .humidityThreshold, .unlock]

/-- Server: write-back of the five control-state fields (main_server.c
354-360); the values written are the computed heater and fan outputs, the
constant 1 for the led, and the reading's temperature and humidity. -/
def serverUpdateSection (h f t hu : ℚ) : List Mop :=
  [.lock, .writeF .heaterOn h, .writeF .fanOn f, .writeF .ledOn 1,
   .writeF .currentTemp t, .writeF .currentHumidity hu, .unlock]

/-- Alert thread: snapshot of the four inputs (main_server.c 116-121). -/
def alertReadSection : List Mop :=
  [.lock, .readF .currentTemp, .readF .currentHumidity,
   .readF .tempThreshold, .readF .humidityThreshold, .unlock]

/-- cleanup_resources: broadcast of the stop flag (main_server.c 155-157). -/
def cleanupStopSection : List Mop :=
  [.lock, .writeF .systemRunning 0, .unlock]

/-- Monitor menu case 1: threshold write (src/main_monitor.c 73-75). -/
def monitorSetTempSection (v : ℚ) : List Mop :=
  [.lock, .writeF .tempThreshold v, .unlock]

/-- Monitor menu case 2: threshold write (src/main_monitor.c 83-85). -/
def monitorSetHumSection (v : ℚ) : List Mop :=
  [.lock, .writeF .humidityThreshold v, .unlock]

/-- Monitor menu case 3 (src/main_monitor.c 90-94): the three printf calls —
the header line, the temperature-threshold line and the humidity-threshold
line — are made while the semaphore is held; each threshold is read as the
printf argument just before the corresponding call. -/
def monitorShowSection : List Mop :=
  [.lock, .ioOp, .readF .tempThreshold, .ioOp,
   .readF .humidityThreshold, .ioOp, .unlock]

/-- Sensor: per-cycle shutdown poll (src/main_sensor.c 212-214). -/
def sensorRunCheckSection : List Mop :=
  [.lock, .readF .systemRunning, .unlock]

/-- Sensor: read of the heater and fan state (src/main_sensor.c 116-121; the
assignments to the local prev_ variables touch no shared field). -/
def sensorControlReadSection : List Mop :=
  [.lock, .readF .heaterOn, .readF .fanOn, .unlock]

/-- Actuator: threshold read in display_dashboard (src/main_actuator.c 68-71,
root main_actuator.c 72-75). -/
def actuatorThreshSection : List Mop :=
  [.lock, .readF .tempThreshold, .readF .humidityThreshold, .unlock]

/-- Actuator: read_control_state (src/main_actuator.c 110-116, root
main_actuator.c 254-260). -/
def actuatorReadControlSection : List Mop :=
  [.lock, .readF .heaterOn, .readF .fanOn, .readF .ledOn,
   .readF .currentTemp, .readF .currentHumidity, .unlock]

/-- Actuator: per-cycle shutdown poll (src/main_actuator.c 159-161, root
main_actuator.c 297-299). -/
def actuatorRunCheckSection : List Mop :=
  [.lock, .readF .systemRunning, .unlock]

/-! Interleaved execution of the semaphore-guarded micro-operations.  Two
concurrently running parties are modelled: the controller (the server main
loop, which per processed reading runs its threshold-read section and then
its five-field update section) and one reader of the five-field control state
(read_control_state in the actuator).  A schedule chooses, at each step,
which party executes its next micro-operation; a party whose next operation
is a lock held by the other party is blocked and its step is a no-op, exactly
the semantics of the System V semaphore P operation.  Reads and writes
themselves are NOT guarded by the semantics: that every access happens while
holding the semaphore is a property of the embedded programs, proved, not
assumed. -/

/-- A party in the interleaving model. -/
inductive Tid
  | ctrl
  | rdr
  deriving DecidableEq, Repr

/-- Shared memory as a field store for the micro-operation semantics. -/
def writeMem (mem : SField → ℚ) (f : SField) (v : ℚ) : SField → ℚ :=
  fun g => if g = f then v else mem g

/-- A configuration of the two-party interleaved system. -/
structure MConfig where
  mem : SField → ℚ
  owner : Option Tid
  ctrlRest : List Mop
  rdrRest : List Mop
  rdrVals : List ℚ

/-- One step of the controller party.  Its reads land in locals that the
model does not track (only the reader's observed values matter here). -/
def stepCtrl (c : MConfig) : MConfig :=
  match c.ctrlRest with
  | [] => c
  | op :: rest =>
    match op with
    | .lock =>
      if c.owner = none then { c with owner := some .ctrl, ctrlRest := rest } else c
    | .unlock =>
      if c.owner = some .ctrl then { c with owner := none, ctrlRest := rest } else c
    | .readF _ => { c with ctrlRest := rest }
    | .writeF f v => { c with mem := writeMem c.mem f v, ctrlRest := rest }
    | .ioOp => { c with ctrlRest := rest }

/-- One step of the reader party; its reads are recorded in order. -/
def stepRdr (c : MConfig) : MConfig :=
  match c.rdrRest with
  | [] => c
  | op :: rest =>
    match op with
    | .lock =>
      if c.owner = none then { c with owner := some .rdr, rdrRest := rest } else c
    | .unlock =>
      if c.owner = some .rdr then { c with owner := none, rdrRest := rest } else c
    | .readF f => { c with rdrVals := c.rdrVals ++ [c.mem f], rdrRest := rest }
    | .writeF f v => { c with mem := writeMem c.mem f v, rdrRest := rest }
    | .ioOp => { c with rdrRest := rest }

/-- One scheduled step. -/
def stepSys (c : MConfig) : Tid → MConfig
  | .ctrl => stepCtrl c
  | .rdr => stepRdr c

/-- Run a whole schedule. -/
def runSys (c : MConfig) (sched : List Tid) : MConfig :=
  sched.foldl stepSys c

/-- One controller update: the values it writes into the five control-state
fields (heater, fan, led is always 1, temperature, humidity). -/
structure Upd where
  h : ℚ
  f : ℚ
  t : ℚ
  hu : ℚ
  deriving DecidableEq, Repr

/-- The five values a complete update leaves in the control-state fields, in
field order heater, fan, led, temperature, humidity. -/
def updTuple (u : Upd) : List ℚ := [u.h, u.f, 1, u.t, u.hu]

/-- The controller's micro-operations for one processed reading: the
threshold-read section followed by the update section (main_server.c
341-360). -/
def ctrlCycleOps (u : Upd) : List Mop :=
  serverThreshReadSection ++ serverUpdateSection u.h u.f u.t u.hu

/-- The controller's micro-operations for a run processing the given list of
updates in order. -/
def ctrlOps : List Upd → List Mop
  | [] => []
  | u :: rest => ctrlCycleOps u ++ ctrlOps rest

/-- The reader's micro-operations: one read_control_state critical
section. -/
def rdrOps : List Mop := actuatorReadControlSection

/-- The five control-state fields of a store, in field order. -/
def tuple5 (mem : SField → ℚ) : List ℚ :=
  [mem .heaterOn, mem .fanOn, mem .ledOn, mem .currentTemp, mem .currentHumidity]

/-- A five-value observation is coherent when it is exactly the initial
control state or exactly the state left by one single update of the run:
never a mixture of two. -/
def coherent (us : List Upd) (init5 : List ℚ) (obs : List ℚ) : Prop :=
  obs = init5 ∨ ∃ u ∈ us, obs = updTuple u

/-- Initial configuration: memory as given, semaphore free, both programs at
their start, nothing read yet. -/
def mkInit (us : List Upd) (m0 : SField → ℚ) : MConfig where
  mem := m0
  owner := none
  ctrlRest := ctrlOps us
  rdrRest := rdrOps
  rdrVals := []

/-- Controller positions where it does not hold the semaphore: at a cycle
boundary (`ctrlRest` is the program for a sub-multiset `tl` of the remaining
updates, possibly empty), or between its threshold-read section and its
update section. -/
def CtrlIdle (us : List Upd) (c : MConfig) : Prop :=
  (∃ tl : List Upd, tl ⊆ us ∧ c.ctrlRest = ctrlOps tl) ∨
  (∃ u : Upd, ∃ tl : List Upd, u ∈ us ∧ tl ⊆ us ∧
    c.ctrlRest = serverUpdateSection u.h u.f u.t u.hu ++ ctrlOps tl)

/-- Controller positions inside its threshold-read critical section, having
consumed `k` of its operations, `1 ≤ k ≤ 3` (it holds the semaphore). -/
def CtrlThresh (us : List Upd) (c : MConfig) : Prop :=
  ∃ k : ℕ, 1 ≤ k ∧ k ≤ 3 ∧ ∃ u : Upd, ∃ tl : List Upd, u ∈ us ∧ tl ⊆ us ∧
    c.ctrlRest =
      serverThreshReadSection.drop k ++
        serverUpdateSection u.h u.f u.t u.hu ++ ctrlOps tl

/-- Controller positions inside its update critical section with `j` of the
five writes done, `0 ≤ j ≤ 5` (it holds the semaphore): the first `j`
control-state fields already carry the update's values. -/
def CtrlWrite (us : List Upd) (c : MConfig) : Prop :=
  ∃ j : ℕ, j ≤ 5 ∧ ∃ u : Upd, ∃ tl : List Upd, u ∈ us ∧ tl ⊆ us ∧
    c.ctrlRest = (serverUpdateSection u.h u.f u.t u.hu).drop (1 + j) ++ ctrlOps tl ∧
    (tuple5 c.mem).take j = (updTuple u).take j

/-- Reader positions where it does not hold the semaphore: not yet started,
or finished with a coherent observation. -/
def RdrIdle (us : List Upd) (m0 : SField → ℚ) (c : MConfig) : Prop :=
  (c.rdrRest = rdrOps ∧ c.rdrVals = []) ∨
  (c.rdrRest = [] ∧ coherent us (tuple5 m0) c.rdrVals)

/-- Reader positions inside its critical section, having consumed `q`
operations, `1 ≤ q ≤ 6` (it holds the semaphore): the values recorded so far
are exactly the first `q - 1` control-state fields of the current memory. -/
def RdrActive (c : MConfig) : Prop :=
  ∃ q : ℕ, 1 ≤ q ∧ q ≤ 6 ∧ c.rdrRest = rdrOps.drop q ∧
    c.rdrVals = (tuple5 c.mem).take (q - 1)

/-- The execution invariant: a case analysis on who holds the semaphore.
Whenever nobody holds it, and whenever the reader holds it, the control-state
five-tuple in memory is coherent; the only positions where it may be a
mixture are strictly inside the controller's update section, where mutual
exclusion keeps the reader out. -/
def Inv (us : List Upd) (m0 : SField → ℚ) (c : MConfig) : Prop :=
  (c.owner = none ∧ CtrlIdle us c ∧ coherent us (tuple5 m0) (tuple5 c.mem) ∧
    RdrIdle us m0 c) ∨
  (c.owner = some .ctrl ∧ CtrlThresh us c ∧ coherent us (tuple5 m0) (tuple5 c.mem) ∧
    RdrIdle us m0 c) ∨
  (c.owner = some .ctrl ∧ CtrlWrite us c ∧ RdrIdle us m0 c) ∨
  (c.owner = some .rdr ∧ CtrlIdle us c ∧ coherent us (tuple5 m0) (tuple5 c.mem) ∧
    RdrActive c)

/-! Helper lemmas for the interleaving model. -/

theorem stepCtrl_nil (c : MConfig) (h : c.ctrlRest = []) : stepCtrl c = c := by
  unfold stepCtrl
  rw [h]

theorem stepRdr_nil (c : MConfig) (h : c.rdrRest = []) : stepRdr c = c := by
  unfold stepRdr
  rw [h]

theorem tuple5_writeMem_heaterOn (mem : SField → ℚ) (v : ℚ) :
    tuple5 (writeMem mem .heaterOn v) =
      [v, mem .fanOn, mem .ledOn, mem .currentTemp, mem .currentHumidity] := by
  simp [tuple5, writeMem]

theorem tuple5_writeMem_fanOn (mem : SField → ℚ) (v : ℚ) :
    tuple5 (writeMem mem .fanOn v) =
      [mem .heaterOn, v, mem .ledOn, mem .currentTemp, mem .currentHumidity] := by
  simp [tuple5, writeMem]

theorem tuple5_writeMem_ledOn (mem : SField → ℚ) (v : ℚ) :
    tuple5 (writeMem mem .ledOn v) =
      [mem .heaterOn, mem .fanOn, v, mem .currentTemp, mem .currentHumidity] := by
  simp [tuple5, writeMem]

theorem tuple5_writeMem_currentTemp (mem : SField → ℚ) (v : ℚ) :
    tuple5 (writeMem mem .currentTemp v) =
      [mem .heaterOn, mem .fanOn, mem .ledOn, v, mem .currentHumidity] := by
  simp [tuple5, writeMem]

theorem tuple5_writeMem_currentHumidity (mem : SField → ℚ) (v : ℚ) :
    tuple5 (writeMem mem .currentHumidity v) =
      [mem .heaterOn, mem .fanOn, mem .ledOn, mem .currentTemp, v] := by
  simp [tuple5, writeMem]

theorem stepCtrl_lock_free (c : MConfig) (L : List Mop)
    (h : c.ctrlRest = .lock :: L) (ho : c.owner = none) :
    stepCtrl c = { c with owner := some .ctrl, ctrlRest := L } := by
  unfold stepCtrl
  rw [h, ho]
  simp

theorem stepCtrl_lock_blocked (c : MConfig) (L : List Mop) (t : Tid)
    (h : c.ctrlRest = .lock :: L) (ho : c.owner = some t) :
    stepCtrl c = c := by
  unfold stepCtrl
  rw [h, ho]
  simp

theorem stepCtrl_unlock_owned (c : MConfig) (L : List Mop)
    (h : c.ctrlRest = .unlock :: L) (ho : c.owner = some .ctrl) :
    stepCtrl c = { c with owner := none, ctrlRest := L } := by
  unfold stepCtrl
  rw [h, ho]
  simp

theorem stepCtrl_read (c : MConfig) (f : SField) (L : List Mop)
    (h : c.ctrlRest = .readF f :: L) :
    stepCtrl c = { c with ctrlRest := L } := by
  unfold stepCtrl
  rw [h]

theorem stepCtrl_write (c : MConfig) (f : SField) (v : ℚ) (L : List Mop)
    (h : c.ctrlRest = .writeF f v :: L) :
    stepCtrl c = { c with mem := writeMem c.mem f v, ctrlRest := L } := by
  unfold stepCtrl
  rw [h]

theorem stepRdr_lock_free (c : MConfig) (L : List Mop)
    (h : c.rdrRest = .lock :: L) (ho : c.owner = none) :
    stepRdr c = { c with owner := some .rdr, rdrRest := L } := by
  unfold stepRdr
  rw [h, ho]
  simp

theorem stepRdr_lock_blocked (c : MConfig) (L : List Mop) (t : Tid)
    (h : c.rdrRest = .lock :: L) (ho : c.owner = some t) :
    stepRdr c = c := by
  unfold stepRdr
  rw [h, ho]
  simp

theorem stepRdr_unlock_owned (c : MConfig) (L : List Mop)
    (h : c.rdrRest = .unlock :: L) (ho : c.owner = some .rdr) :
    stepRdr c = { c with owner := none, rdrRest := L } := by
  unfold stepRdr
  rw [h, ho]
  simp

theorem stepRdr_read (c : MConfig) (f : SField) (L : List Mop)
    (h : c.rdrRest = .readF f :: L) :
    stepRdr c = { c with rdrVals := c.rdrVals ++ [c.mem f], rdrRest := L } := by
  unfold stepRdr
  rw [h]

theorem inv_init (us : List Upd) (m0 : SField → ℚ) : Inv us m0 (mkInit us m0) :=
  Or.inl ⟨rfl, Or.inl ⟨us, List.Subset.refl us, rfl⟩, Or.inl rfl, Or.inl ⟨rfl, rfl⟩⟩

theorem inv_step (us : List Upd) (m0 : SField → ℚ) (c : MConfig) (w : Tid)
    (hinv : Inv us m0 c) : Inv us m0 (stepSys c w) := by
  cases w
  case ctrl =>
    show Inv us m0 (stepCtrl c)
    rcases hinv with ⟨hown, hctrl, hcoh, hrdr⟩ | ⟨hown, hctrl, hcoh, hrdr⟩ |
      ⟨hown, hctrl, hrdr⟩ | ⟨hown, hctrl, hcoh, hrdr⟩
    · -- semaphore free: the controller is finished or acquires it
      rcases hctrl with ⟨tl, hsub, hrest⟩ | ⟨u, tl, hu, hsub, hrest⟩
      · cases tl with
        | nil =>
          rw [stepCtrl_nil c (by rw [hrest]; rfl)]
          exact Or.inl ⟨hown, Or.inl ⟨[], hsub, hrest⟩, hcoh, hrdr⟩
        | cons u tl' =>
          have hrest' : c.ctrlRest = Mop.lock ::
              (serverThreshReadSection.drop 1 ++
                serverUpdateSection u.h u.f u.t u.hu ++ ctrlOps tl') := by
            rw [hrest]; rfl
          rw [stepCtrl_lock_free c _ hrest' hown]
          exact Or.inr (Or.inl ⟨rfl,
            ⟨1, le_refl 1, by norm_num, u, tl', hsub (List.mem_cons_self u tl'),
              fun x hx => hsub (List.mem_cons_of_mem u hx), rfl⟩, hcoh, hrdr⟩)
      · have hrest' : c.ctrlRest = Mop.lock ::
            ((serverUpdateSection u.h u.f u.t u.hu).drop (1 + 0) ++ ctrlOps tl) := by
          rw [hrest]; rfl
        rw [stepCtrl_lock_free c _ hrest' hown]
        exact Or.inr (Or.inr (Or.inl ⟨rfl,
          ⟨0, by norm_num, u, tl, hu, hsub, rfl, rfl⟩, hrdr⟩))
    · -- controller inside its threshold-read section
      obtain ⟨k, hk1, hk3, u, tl, hu, hsub, hrest⟩ := hctrl
      interval_cases k
      · have hrest' : c.ctrlRest = Mop.readF .tempThreshold ::
            (serverThreshReadSection.drop 2 ++
              serverUpdateSection u.h u.f u.t u.hu ++ ctrlOps tl) := by
          rw [hrest]; rfl
        rw [stepCtrl_read c _ _ hrest']
        exact Or.inr (Or.inl ⟨hown,
          ⟨2, by norm_num, by norm_num, u, tl, hu, hsub, rfl⟩, hcoh, hrdr⟩)
      · have hrest' : c.ctrlRest = Mop.readF .humidityThreshold ::
            (serverThreshReadSection.drop 3 ++
              serverUpdateSection u.h u.f u.t u.hu ++ ctrlOps tl) := by
          rw [hrest]; rfl
        rw [stepCtrl_read c _ _ hrest']
        exact Or.inr (Or.inl ⟨hown,
          ⟨3, by norm_num, by norm_num, u, tl, hu, hsub, rfl⟩, hcoh, hrdr⟩)
      · have hrest' : c.ctrlRest = Mop.unlock ::
            (serverUpdateSection u.h u.f u.t u.hu ++ ctrlOps tl) := by
          rw [hrest]; rfl
        rw [stepCtrl_unlock_owned c _ hrest' hown]
        exact Or.inl ⟨rfl, Or.inr ⟨u, tl, hu, hsub, rfl⟩, hcoh, hrdr⟩
    · -- controller inside its update section
      obtain ⟨j, hj, u, tl, hu, hsub, hrest, htake⟩ := hctrl
      interval_cases j
      · have hrest' : c.ctrlRest = Mop.writeF .heaterOn u.h ::
            ((serverUpdateSection u.h u.f u.t u.hu).drop (1 + 1) ++ ctrlOps tl) := by
          rw [hrest]; rfl
        rw [stepCtrl_write c _ _ _ hrest']
        refine Or.inr (Or.inr (Or.inl ⟨hown,
          ⟨1, by norm_num, u, tl, hu, hsub, rfl, ?_⟩, hrdr⟩))
        show (tuple5 (writeMem c.mem .heaterOn u.h)).take 1 = (updTuple u).take 1
        rw [tuple5_writeMem_heaterOn]
        rfl
      · have hrest' : c.ctrlRest = Mop.writeF .fanOn u.f ::
            ((serverUpdateSection u.h u.f u.t u.hu).drop (1 + 2) ++ ctrlOps tl) := by
          rw [hrest]; rfl
        rw [stepCtrl_write c _ _ _ hrest']
        have h1 : [c.mem .heaterOn] = [u.h] := htake
        refine Or.inr (Or.inr (Or.inl ⟨hown,
          ⟨2, by norm_num, u, tl, hu, hsub, rfl, ?_⟩, hrdr⟩))
        show (tuple5 (writeMem c.mem .fanOn u.f)).take 2 = (updTuple u).take 2
        rw [tuple5_writeMem_fanOn]
        show [c.mem .heaterOn, u.f] = [u.h, u.f]
        rw [List.cons.injEq] at h1
        rw [h1.1]
      · have hrest' : c.ctrlRest = Mop.writeF .ledOn 1 ::
            ((serverUpdateSection u.h u.f u.t u.hu).drop (1 + 3) ++ ctrlOps tl) := by
          rw [hrest]; rfl
        rw [stepCtrl_write c _ _ _ hrest']
        have h2 : [c.mem .heaterOn, c.mem .fanOn] = [u.h, u.f] := htake
        refine Or.inr (Or.inr (Or.inl ⟨hown,
          ⟨3, by norm_num, u, tl, hu, hsub, rfl, ?_⟩, hrdr⟩))
        show (tuple5 (writeMem c.mem .ledOn 1)).take 3 = (updTuple u).take 3
        rw [tuple5_writeMem_ledOn]
        show [c.mem .heaterOn, c.mem .fanOn, (1 : ℚ)] = [u.h, u.f, 1]
        simp only [List.cons.injEq] at h2
        rw [h2.1, h2.2.1]
      · have hrest' : c.ctrlRest = Mop.writeF .currentTemp u.t ::
            ((serverUpdateSection u.h u.f u.t u.hu).drop (1 + 4) ++ ctrlOps tl) := by
          rw [hrest]; rfl
        rw [stepCtrl_write c _ _ _ hrest']
        have h3 : [c.mem .heaterOn, c.mem .fanOn, c.mem .ledOn] = [u.h, u.f, 1] := htake
        refine Or.inr (Or.inr (Or.inl ⟨hown,
          ⟨4, by norm_num, u, tl, hu, hsub, rfl, ?_⟩, hrdr⟩))
        show (tuple5 (writeMem c.mem .currentTemp u.t)).take 4 = (updTuple u).take 4
        rw [tuple5_writeMem_currentTemp]
        show [c.mem .heaterOn, c.mem .fanOn, c.mem .ledOn, u.t] = [u.h, u.f, 1, u.t]
        simp only [List.cons.injEq] at h3
        rw [h3.1, h3.2.1, h3.2.2.1]
      · have hrest' : c.ctrlRest = Mop.writeF .currentHumidity u.hu ::
            ((serverUpdateSection u.h u.f u.t u.hu).drop (1 + 5) ++ ctrlOps tl) := by
          rw [hrest]; rfl
        rw [stepCtrl_write c _ _ _ hrest']
        have h4 : [c.mem .heaterOn, c.mem .fanOn, c.mem .ledOn, c.mem .currentTemp]
            = [u.h, u.f, 1, u.t] := htake
        refine Or.inr (Or.inr (Or.inl ⟨hown,
          ⟨5, by norm_num, u, tl, hu, hsub, rfl, ?_⟩, hrdr⟩))
        show (tuple5 (writeMem c.mem .currentHumidity u.hu)).take 5 = (updTuple u).take 5
        rw [tuple5_writeMem_currentHumidity]
        show [c.mem .heaterOn, c.mem .fanOn, c.mem .ledOn, c.mem .currentTemp, u.hu]
            = [u.h, u.f, 1, u.t, u.hu]
        simp only [List.cons.injEq] at h4
        rw [h4.1, h4.2.1, h4.2.2.1, h4.2.2.2.1]
      · have hrest' : c.ctrlRest = Mop.unlock :: ctrlOps tl := by
          rw [hrest]; rfl
        rw [stepCtrl_unlock_owned c _ hrest' hown]
        have hmem : tuple5 c.mem = updTuple u := htake
        exact Or.inl ⟨rfl, Or.inl ⟨tl, hsub, rfl⟩, Or.inr ⟨u, hu, hmem⟩, hrdr⟩
    · -- reader holds the semaphore: the controller is blocked or finished
      have hstep : stepCtrl c = c := by
        rcases hctrl with ⟨tl, hsub, hrest⟩ | ⟨u, tl, hu, hsub, hrest⟩
        · cases tl with
          | nil => exact stepCtrl_nil c (by rw [hrest]; rfl)
          | cons u tl' => exact stepCtrl_lock_blocked c _ .rdr (by rw [hrest]; rfl) hown
        · exact stepCtrl_lock_blocked c _ .rdr (by rw [hrest]; rfl) hown
      rw [hstep]
      exact Or.inr (Or.inr (Or.inr ⟨hown, hctrl, hcoh, hrdr⟩))
  case rdr =>
    show Inv us m0 (stepRdr c)
    rcases hinv with ⟨hown, hctrl, hcoh, hrdr⟩ | ⟨hown, hctrl, hcoh, hrdr⟩ |
      ⟨hown, hctrl, hrdr⟩ | ⟨hown, hctrl, hcoh, hrdr⟩
    · -- semaphore free: the reader is finished or acquires it
      rcases hrdr with ⟨hrest, hvals⟩ | ⟨hrest, hcohv⟩
      · have hrest' : c.rdrRest = Mop.lock :: rdrOps.drop 1 := by rw [hrest]; rfl
        rw [stepRdr_lock_free c _ hrest' hown]
        refine Or.inr (Or.inr (Or.inr ⟨rfl, hctrl, hcoh,
          ⟨1, le_refl 1, by norm_num, rfl, ?_⟩⟩))
        show c.rdrVals = (tuple5 c.mem).take 0
        rw [hvals]; rfl
      · rw [stepRdr_nil c hrest]
        exact Or.inl ⟨hown, hctrl, hcoh, Or.inr ⟨hrest, hcohv⟩⟩
    · -- controller in its threshold section: the reader is blocked or finished
      have hstep : stepRdr c = c := by
        rcases hrdr with ⟨hrest, hvals⟩ | ⟨hrest, hcohv⟩
        · exact stepRdr_lock_blocked c _ .ctrl (by rw [hrest]; rfl) hown
        · exact stepRdr_nil c hrest
      rw [hstep]
      exact Or.inr (Or.inl ⟨hown, hctrl, hcoh, hrdr⟩)
    · -- controller mid-update: the reader is blocked or finished
      have hstep : stepRdr c = c := by
        rcases hrdr with ⟨hrest, hvals⟩ | ⟨hrest, hcohv⟩
        · exact stepRdr_lock_blocked c _ .ctrl (by rw [hrest]; rfl) hown
        · exact stepRdr_nil c hrest
      rw [hstep]
      exact Or.inr (Or.inr (Or.inl ⟨hown, hctrl, hrdr⟩))
    · -- reader owns the semaphore and advances through its reads
      obtain ⟨q, hq1, hq6, hrest, hvals⟩ := hrdr
      interval_cases q
      · have hrest' : c.rdrRest = Mop.readF .heaterOn :: rdrOps.drop 2 := by
          rw [hrest]; rfl
        rw [stepRdr_read c _ _ hrest']
        refine Or.inr (Or.inr (Or.inr ⟨hown, hctrl, hcoh,
          ⟨2, by norm_num, by norm_num, rfl, ?_⟩⟩))
        show c.rdrVals ++ [c.mem .heaterOn] = (tuple5 c.mem).take 1
        rw [hvals]; rfl
      · have hrest' : c.rdrRest = Mop.readF .fanOn :: rdrOps.drop 3 := by
          rw [hrest]; rfl
        rw [stepRdr_read c _ _ hrest']
        refine Or.inr (Or.inr (Or.inr ⟨hown, hctrl, hcoh,
          ⟨3, by norm_num, by norm_num, rfl, ?_⟩⟩))
        show c.rdrVals ++ [c.mem .fanOn] = (tuple5 c.mem).take 2
        rw [hvals]; rfl
      · have hrest' : c.rdrRest = Mop.readF .ledOn :: rdrOps.drop 4 := by
          rw [hrest]; rfl
        rw [stepRdr_read c _ _ hrest']
        refine Or.inr (Or.inr (Or.inr ⟨hown, hctrl, hcoh,
          ⟨4, by norm_num, by norm_num, rfl, ?_⟩⟩))
        show c.rdrVals ++ [c.mem .ledOn] = (tuple5 c.mem).take 3
        rw [hvals]; rfl
      · have hrest' : c.rdrRest = Mop.readF .currentTemp :: rdrOps.drop 5 := by
          rw [hrest]; rfl
        rw [stepRdr_read c _ _ hrest']
        refine Or.inr (Or.inr (Or.inr ⟨hown, hctrl, hcoh,
          ⟨5, by norm_num, by norm_num, rfl, ?_⟩⟩))
        show c.rdrVals ++ [c.mem .currentTemp] = (tuple5 c.mem).take 4
        rw [hvals]; rfl
      · have hrest' : c.rdrRest = Mop.readF .currentHumidity :: rdrOps.drop 6 := by
          rw [hrest]; rfl
        rw [stepRdr_read c _ _ hrest']
        refine Or.inr (Or.inr (Or.inr ⟨hown, hctrl, hcoh,
          ⟨6, by norm_num, by norm_num, rfl, ?_⟩⟩))
        show c.rdrVals ++ [c.mem .currentHumidity] = (tuple5 c.mem).take 5
        rw [hvals]; rfl
      · have hrest' : c.rdrRest = Mop.unlock :: ([] : List Mop) := by
          rw [hrest]; rfl
        rw [stepRdr_unlock_owned c _ hrest' hown]
        refine Or.inl ⟨rfl, hctrl, hcoh, Or.inr ⟨rfl, ?_⟩⟩
        show coherent us (tuple5 m0) c.rdrVals
        rw [hvals]
        exact hcoh

theorem inv_run (us : List Upd) (m0 : SField → ℚ) (sched : List Tid) (c : MConfig)
    (hinv : Inv us m0 c) : Inv us m0 (runSys c sched) := by
  induction sched generalizing c with
  | nil => exact hinv
  | cons w rest ih => exact ih (stepSys c w) (inv_step us m0 c w hinv)

/-! The claims. -/

/-- Claim C1: for every reading r and thresholds (T, H) held in SharedState,
after the Controller processes r the device state satisfies
heaterOn = (r.temperature < T), fanOn = (r.humidity > H) and ledOn = 1, with
strict inequality as the tie-break: r.temperature = T yields heater OFF and
r.humidity = H yields fan OFF. -/
theorem C1_controller_policy (s : SharedData) (r : SensorDataMsg) (now : ℤ) :
    ((controllerProcessReading s r now).1.heater_on
        = if r.temperature < (s.temp_threshold : ℚ) then 1 else 0) ∧
    ((controllerProcessReading s r now).1.fan_on
        = if r.humidity > (s.humidity_threshold : ℚ) then 1 else 0) ∧
    (controllerProcessReading s r now).1.led_on = 1 ∧
    (r.temperature = (s.temp_threshold : ℚ) →
      (controllerProcessReading s r now).1.heater_on = 0) ∧
    (r.humidity = (s.humidity_threshold : ℚ) →
      (controllerProcessReading s r now).1.fan_on = 0) := by
  refine ⟨rfl, rfl, rfl, fun heq => ?_, fun heq => ?_⟩
  · show (if r.temperature < (s.temp_threshold : ℚ) then (1 : ℤ) else 0) = 0
    rw [heq]
    simp
  · show (if r.humidity > (s.humidity_threshold : ℚ) then (1 : ℤ) else 0) = 0
    rw [heq]
    simp

/-- Witness for C1 at the exact-threshold reading (28, 70) against the default
thresholds: both tie-breaks resolve to OFF. -/
theorem C1_controller_policy_witness :
    (controllerProcessReading initSharedData ⟨28, 70, 0⟩ 0).1.heater_on = 0 ∧
    (controllerProcessReading initSharedData ⟨28, 70, 0⟩ 0).1.fan_on = 0 :=
  ⟨(C1_controller_policy initSharedData ⟨28, 70, 0⟩ 0).2.2.2.1 (by norm_num [initSharedData]),
   (C1_controller_policy initSharedData ⟨28, 70, 0⟩ 0).2.2.2.2 (by norm_num [initSharedData])⟩

/-- Claim C8: immediately after system start, before any reading is
processed, SharedState holds exactly the documented defaults: temp threshold
28, humidity threshold 70, heater off, fan off, led on, running true. -/
theorem C8_initial_defaults :
    initSharedData.temp_threshold = 28 ∧
    initSharedData.humidity_threshold = 70 ∧
    initSharedData.heater_on = 0 ∧
    initSharedData.fan_on = 0 ∧
    initSharedData.led_on = 1 ∧
    initSharedData.system_running = 1 :=
  ⟨rfl, rfl, rfl, rfl, rfl, rfl⟩

/-- Claim C10: initialization also sets the last-known readings to the fixed
values 25.0 degrees and 50.0 percent, so a reader that runs before the first
processed reading (here: read_control_state) observes 25.0 and 50.0 rather
than zero or undefined values. -/
theorem C10_initial_readings :
    initSharedData.current_temp = 25 ∧
    initSharedData.current_humidity = 50 ∧
    (read_control_state initSharedData).current_temp = 25 ∧
    (read_control_state initSharedData).current_humidity = 50 :=
  ⟨rfl, rfl, rfl, rfl⟩

/-- Claim C9: the console's set-threshold operations store exactly the
integer read from the operator — any value, including zero or a negative
number — and leave every other SharedState field unchanged. -/
theorem C9_threshold_set_no_validation (s : SharedData) (v : ℤ) :
    (monitorSetTempThreshold s v).temp_threshold = v ∧
    (monitorSetTempThreshold s v).humidity_threshold = s.humidity_threshold ∧
    (monitorSetTempThreshold s v).heater_on = s.heater_on ∧
    (monitorSetTempThreshold s v).fan_on = s.fan_on ∧
    (monitorSetTempThreshold s v).led_on = s.led_on ∧
    (monitorSetTempThreshold s v).current_temp = s.current_temp ∧
    (monitorSetTempThreshold s v).current_humidity = s.current_humidity ∧
    (monitorSetTempThreshold s v).system_running = s.system_running ∧
    (monitorSetHumidityThreshold s v).humidity_threshold = v ∧
    (monitorSetHumidityThreshold s v).temp_threshold = s.temp_threshold ∧
    (monitorSetHumidityThreshold s v).heater_on = s.heater_on ∧
    (monitorSetHumidityThreshold s v).fan_on = s.fan_on ∧
    (monitorSetHumidityThreshold s v).led_on = s.led_on ∧
    (monitorSetHumidityThreshold s v).current_temp = s.current_temp ∧
    (monitorSetHumidityThreshold s v).current_humidity = s.current_humidity ∧
    (monitorSetHumidityThreshold s v).system_running = s.system_running :=
  ⟨rfl, rfl, rfl, rfl, rfl, rfl, rfl, rfl, rfl, rfl, rfl, rfl, rfl, rfl, rfl, rfl⟩

/-- Claim C5: after the write end of the log pipe is closed, the LogSink
child processes every record already enqueued, in arrival order, appending
one formatted line per record before it terminates: no enqueued record is
lost. -/
theorem C5_logger_drains_all (queued : List LogMessage) :
    loggerDrain queued = queued.map formatLogLine ∧
    (loggerDrain queued).length = queued.length := by
  have hmap : ∀ q : List LogMessage, loggerDrain q = q.map formatLogLine := by
    intro q
    induction q with
    | nil => rfl
    | cons m rest ih => simp [loggerDrain, ih]
  refine ⟨hmap queued, ?_⟩
  rw [hmap queued]
  exact List.length_map queued formatLogLine

/-- Claim C4: on every AlertMonitor tick the four inputs are read in one
scoped access (the embedded section is one lock/unlock pair whose reads are
exactly current_temp, current_humidity, temp_threshold, humidity_threshold),
and exactly the alerts whose condition holds are emitted, with strict
comparisons and no de-duplication (the tick is a pure function of the
snapshot, so an unchanged snapshot emits the same alerts again): the claim's
scenario values 34/28, 32/28 and 19 behave as stated. -/
theorem C4_alert_policy (s : SharedData) :
    ((alertTick s).high_temp = true ↔ s.current_temp > (s.temp_threshold : ℚ) + 5) ∧
    ((alertTick s).low_temp = true ↔ s.current_temp < 20) ∧
    ((alertTick s).high_hum = true ↔
      s.current_humidity > (s.humidity_threshold : ℚ) + 10) ∧
    alertTick s =
      alertConditions s.current_temp s.current_humidity
        s.temp_threshold s.humidity_threshold ∧
    sectionReads alertReadSection =
      [.currentTemp, .currentHumidity, .tempThreshold, .humidityThreshold] ∧
    singleScoped alertReadSection = true ∧
    (alertTick { s with current_temp := 34, temp_threshold := 28 }).high_temp = true ∧
    (alertTick { s with current_temp := 32, temp_threshold := 28 }).high_temp = false ∧
    (alertTick { s with current_temp := 19 }).low_temp = true := by
  refine ⟨?_, ?_, ?_, rfl, rfl, rfl, ?_, ?_, ?_⟩
  · show decide (s.current_temp > ((s.temp_threshold + 5 : ℤ) : ℚ)) = true ↔ _
    rw [decide_eq_true_eq]
    push_cast
    rfl
  · show decide (s.current_temp < 20) = true ↔ _
    rw [decide_eq_true_eq]
  · show decide (s.current_humidity > ((s.humidity_threshold + 10 : ℤ) : ℚ)) = true ↔ _
    rw [decide_eq_true_eq]
    push_cast
    rfl
  · show decide ((34 : ℚ) > ((28 + 5 : ℤ) : ℚ)) = true
    decide
  · show decide ((32 : ℚ) > ((28 + 5 : ℤ) : ℚ)) = false
    decide
  · show decide ((19 : ℚ) < 20) = true
    decide

/-- Witness for C4: with the default thresholds and current temperature 34,
the high-temperature alert fires. -/
theorem C4_alert_policy_witness :
    (alertTick { initSharedData with current_temp := 34 }).high_temp = true :=
  (C4_alert_policy { initSharedData with current_temp := 34 }).1.mpr
    (by norm_num [initSharedData])

/-- Claim C7 counterexample: the monitor's show-settings critical section
(src/main_monitor.c lines 90-94) performs printf I/O while holding the
semaphore, so not every critical section is field accesses only. -/
theorem C7_counterexample_monitor_show : fieldOpsOnly monitorShowSection = false := rfl

/-- Claim C7 as amended: every semaphore critical section in the six source
files performs only shared-field reads and writes before releasing — except
the monitor's show-settings section, which prints the two thresholds while
holding the semaphore. -/
theorem C7_critical_sections (hv fv tv huv vv wv : ℚ) :
    fieldOpsOnly serverInitSection = true ∧
    fieldOpsOnly serverThreshReadSection = true ∧
    fieldOpsOnly (serverUpdateSection hv fv tv huv) = true ∧
    fieldOpsOnly alertReadSection = true ∧
    fieldOpsOnly cleanupStopSection = true ∧
    fieldOpsOnly (monitorSetTempSection vv) = true ∧
    fieldOpsOnly (monitorSetHumSection wv) = true ∧
    fieldOpsOnly sensorRunCheckSection = true ∧
    fieldOpsOnly sensorControlReadSection = true ∧
    fieldOpsOnly actuatorThreshSection = true ∧
    fieldOpsOnly actuatorReadControlSection = true ∧
    fieldOpsOnly actuatorRunCheckSection = true ∧
    fieldOpsOnly monitorShowSection = false :=
  ⟨rfl, rfl, rfl, rfl, rfl, rfl, rfl, rfl, rfl, rfl, rfl, rfl, rfl⟩

/-- Claim C3 counterexample: it is not the case that the Controller's loop
guard is false whenever the shared running flag is 0 — the server main loop
is `while (1)` and never polls the flag. -/
theorem C3_counterexample_controller_ignores_flag :
    ¬ (∀ s : SharedData, s.system_running = 0 → serverLoopGuard s = false) := by
  intro hcl
  have h := hcl { initSharedData with system_running := 0 } rfl
  exact absurd h (by simp [serverLoopGuard])

/-- Claim C3 as amended: the shutdown routine first clears the process-local
thread_running flag — which is what the AlertMonitor's loop guard polls — and
then clears the shared running flag, which the sensor and actuator loops poll
at the start of each cycle and then terminate; the Controller's own loop
guard is constantly true (it never polls running and terminates only through
the signal handler calling cleanup_resources and exiting). -/
theorem C3_shutdown_broadcast (st : SysState)
    (hptr : st.g.shared_ptr_valid = true) :
    (cleanup_resources st).1.g.thread_running = 0 ∧
    (cleanup_resources st).1.shared.system_running = 0 ∧
    alertLoopGuard (cleanup_resources st).1.g.thread_running = false ∧
    sensorRunPoll (cleanup_resources st).1.shared = false ∧
    actuatorRunPoll (cleanup_resources st).1.shared = false ∧
    (∀ s : SharedData, serverLoopGuard s = true) := by
  have h2 : (cleanup_resources st).1.shared.system_running = 0 := by
    simp [cleanup_resources, hptr]
  refine ⟨rfl, h2, rfl, ?_, ?_, fun s => rfl⟩
  · simp [sensorRunPoll, h2]
  · simp [actuatorRunPoll, h2]

/-- Witness for C3 as amended, at the post-initialization server state. -/
theorem C3_shutdown_broadcast_witness :
    (cleanup_resources postInitState).1.g.thread_running = 0 ∧
    (cleanup_resources postInitState).1.shared.system_running = 0 ∧
    alertLoopGuard (cleanup_resources postInitState).1.g.thread_running = false ∧
    sensorRunPoll (cleanup_resources postInitState).1.shared = false ∧
    actuatorRunPoll (cleanup_resources postInitState).1.shared = false ∧
    (∀ s : SharedData, serverLoopGuard s = true) :=
  C3_shutdown_broadcast postInitState rfl

/-- Claim C6, evaluated at the failing input: calling cleanup_resources a
second time from the state left by the first call does reproduce the same
end state, but it re-releases resources and raises errors — the action list
of the second call contains failing calls, among them a second close of the
already-closed pipe write fd and a sem_lock on the already-removed semaphore
(which perrors).  This contradicts the claim that a second invocation
double-releases nothing and raises no error. -/
theorem C6_second_cleanup_rereleases :
    ((cleanup_resources (cleanup_resources postInitState).1).1
        = (cleanup_resources postInitState).1) ∧
    (cleanup_resources (cleanup_resources postInitState).1).2.any
        cleanupActionFails = true ∧
    CleanupAction.closePipeWrite 4 false
      ∈ (cleanup_resources (cleanup_resources postInitState).1).2 ∧
    CleanupAction.lockSem false
      ∈ (cleanup_resources (cleanup_resources postInitState).1).2 := by
  refine ⟨?_, ?_, ?_, ?_⟩ <;> decide

/-- Claim C2: SharedState access is mutually exclusive.  The controller's
update section writes all five control-state fields inside a single lock
acquisition and the reader reads all five inside a single lock acquisition
(the two embedded sections are single scoped accesses), and for every list of
controller updates, every initial memory and every interleaving schedule, if
the reader has finished then the five values it observed are coherent: all
from the initial state or all from one single update, never a mixture of two
updates. -/
theorem C2_sharedstate_serializable :
    (∀ hv fv tv huv : ℚ, singleScoped (serverUpdateSection hv fv tv huv) = true) ∧
    singleScoped actuatorReadControlSection = true ∧
    ∀ (us : List Upd) (m0 : SField → ℚ) (sched : List Tid),
      (runSys (mkInit us m0) sched).rdrRest = [] →
      coherent us (tuple5 m0) (runSys (mkInit us m0) sched).rdrVals := by
  refine ⟨fun hv fv tv huv => rfl, rfl, fun us m0 sched hdone => ?_⟩
  have hinv := inv_run us m0 sched (mkInit us m0) (inv_init us m0)
  rcases hinv with ⟨_, _, _, hrdr⟩ | ⟨_, _, _, hrdr⟩ | ⟨_, _, hrdr⟩ | ⟨_, _, _, hact⟩
  · rcases hrdr with ⟨hrest, _⟩ | ⟨_, hcohv⟩
    · rw [hdone] at hrest
      simp [rdrOps, actuatorReadControlSection] at hrest
    · exact hcohv
  · rcases hrdr with ⟨hrest, _⟩ | ⟨_, hcohv⟩
    · rw [hdone] at hrest
      simp [rdrOps, actuatorReadControlSection] at hrest
    · exact hcohv
  · rcases hrdr with ⟨hrest, _⟩ | ⟨_, hcohv⟩
    · rw [hdone] at hrest
      simp [rdrOps, actuatorReadControlSection] at hrest
    · exact hcohv
  · obtain ⟨q, hq1, hq6, hrest, _⟩ := hact
    rw [hdone] at hrest
    interval_cases q <;> simp [rdrOps, actuatorReadControlSection] at hrest

/-- Witness for C2: with no updates and a schedule that lets the reader run
its whole critical section, the reader finishes and its observation is
coherent. -/
theorem C2_sharedstate_serializable_witness :
    (runSys (mkInit [] fun _ => 0)
        [.rdr, .rdr, .rdr, .rdr, .rdr, .rdr, .rdr]).rdrRest = [] ∧
    coherent [] (tuple5 fun _ => 0)
      (runSys (mkInit [] fun _ => 0)
        [.rdr, .rdr, .rdr, .rdr, .rdr, .rdr, .rdr]).rdrVals :=
  ⟨rfl, C2_sharedstate_serializable.2.2 [] (fun _ => 0) _ rfl⟩

end SmartFarm
